import Mathlib

/-!
# MN MarketLink — verification of the order-placement core

Shallow embedding of `src/MNMarket/mnmarketlink.py`. The database is a
record of tables (lists of rows); every database-facing function takes an
explicit fault input describing whether the connection, or a particular
SQL statement, fails — mirroring the `mysql.connector.Error` paths of the
source. Money is modelled as `ℚ`, quantities as `ℕ`, and the MySQL
transaction of `place_order_transaction` as all-or-nothing application of
the pending inserts (a rollback restores the pre-transaction state).
-/

/-- A time of day, as Python's `datetime.time(hour, minute)`. -/
structure PyTime where
  hour : Nat
  minute : Nat
deriving DecidableEq, Repr

/-- The module-level list built by the source's loop:
`for hour in range(8, 13): append(time(hour,0)); append(time(hour,30))`,
then `append(time(13, 0))`. -/
def ALLOWED_PICKUP_TIMES : List PyTime :=
  ((List.range' 8 5).foldl
    (fun acc hour => acc ++ [⟨hour, 0⟩, ⟨hour, 30⟩]) []) ++ [⟨13, 0⟩]

/-- Two-digit zero-padded decimal rendering, as `strftime` field output. -/
def twoDigit (n : Nat) : String :=
  if n < 10 then "0" ++ toString n else toString n

/-- The hour rendered by `strftime` directive `%I` (12-hour clock, 01–12). -/
def hour12 (h : Nat) : Nat :=
  if h % 12 = 0 then 12 else h % 12

/-- The suffix rendered by `strftime` directive `%p`. -/
def ampm (h : Nat) : String :=
  if h < 12 then "AM" else "PM"

/-- Python's `str.lstrip("0")`: drop every leading `'0'` character. -/
def lstripZero (s : String) : String :=
  String.mk (s.toList.dropWhile (fun c => c = '0'))

/-- `time_to_label`: `t.strftime("%I:%M %p").lstrip("0")`. -/
def time_to_label (t : PyTime) : String :=
  lstripZero (twoDigit (hour12 t.hour) ++ ":" ++ twoDigit t.minute ++ " " ++ ampm t.hour)

/-- Membership test against the allowed grid, as the source's
`t in ALLOWED_PICKUP_TIMES` / `t not in ALLOWED_PICKUP_TIMES`. -/
def isValidPickupTime (t : PyTime) : Bool :=
  ALLOWED_PICKUP_TIMES.contains t

/-- A datetime: an opaque day index paired with a time of day
(`datetime.combine(date, time)`). -/
structure PyDateTime where
  date : Nat
  time : PyTime
deriving DecidableEq, Repr

/-! ## Database row types -/

structure MarketRow where
  MarketID : Nat
  Name : String
  Location : String
deriving DecidableEq, Repr

structure VendorRow where
  VendorID : Nat
  BusinessName : String
deriving DecidableEq, Repr

structure ProductRow where
  ProductID : Nat
  VendorID : Nat
  Name : String
  Price : ℚ
deriving DecidableEq, Repr

structure VendorMarketRow where
  VendorID : Nat
  MarketID : Nat
  DateAvailable : Nat
  StartTime : PyTime
  EndTime : PyTime
deriving DecidableEq, Repr

structure CustomerRow where
  CustomerID : Nat
  Name : String
  Email : String
deriving DecidableEq, Repr

structure OrderRow where
  OrderID : Nat
  CustomerID : Nat
  VendorID : Nat
  OrderDate : Nat
  PickupDate : PyDateTime
  TotalPrice : ℚ
deriving DecidableEq, Repr

structure OrderItemRow where
  OrderItemID : Nat
  OrderID : Nat
  ProductID : Nat
  Quantity : Nat
  Price : ℚ
deriving DecidableEq, Repr

/-- The database: one list per table, plus the auto-increment counters
behind `cur.lastrowid`. -/
structure DB where
  markets : List MarketRow
  vendors : List VendorRow
  products : List ProductRow
  vendorMarkets : List VendorMarketRow
  customers : List CustomerRow
  orders : List OrderRow
  orderItems : List OrderItemRow
  nextCustomerId : Nat
  nextOrderId : Nat
  nextOrderItemId : Nat
deriving DecidableEq, Repr

/-- A database with empty tables (auto-increment counters start at 1,
as MySQL's default). -/
def emptyDB : DB :=
  ⟨[], [], [], [], [], [], [], 1, 1, 1⟩

/-! ## Cart (session state of `page_place_preorder`) -/

/-- One entry of `st.session_state.cart`:
`{"product_id": ..., "product_name": ..., "unit_price": ..., "quantity": ...}`. -/
structure CartLine where
  product_id : Nat
  product_name : String
  unit_price : ℚ
  quantity : Nat
deriving DecidableEq, Repr

/-- The loop body of the `Add to Cart` handler: walk the cart and bump the
quantity of the first line whose `product_id` matches. -/
def bumpQuantity (pid : Nat) (qty : Nat) : List CartLine → List CartLine
  | [] => []
  | l :: ls =>
    if l.product_id = pid then { l with quantity := l.quantity + qty } :: ls
    else l :: bumpQuantity pid qty ls

/-- The `Add to Cart` handler (source lines 625–639): if a line with the
selected product's id is found its quantity is incremented, otherwise a new
line is appended capturing the product's current name and price. -/
def addToCart (cart : List CartLine) (pid : Nat) (pname : String) (price : ℚ)
    (qty : Nat) : List CartLine :=
  if cart.any (fun l => l.product_id = pid) then bumpQuantity pid qty cart
  else cart ++ [⟨pid, pname, price, qty⟩]

/-! ## Write operations -/

/-- Which failure, if any, a single-statement write operation hits:
`get_connection` returning `None`, or the SQL statement raising
`mysql.connector.Error`. -/
inductive WriteFault where
  | connFail
  | execFail
  | noFault
deriving DecidableEq, Repr

/-- Outcome of `create_customer`: `(True, new_id)`, or `(False, message)`
for the connection failure / caught-`Error` branches. -/
inductive CreateResult where
  | ok (customer_id : Nat)
  | connError
  | persistenceError
deriving DecidableEq, Repr

/-- `create_customer(name, email)` (source lines 141–166): inserts one
`Customer` row — with no validation of its arguments — and returns the new
id; on a caught `Error` the insert is rolled back and `(False, str(e))`
returned. -/
def create_customer (db : DB) (fault : WriteFault) (name email : String) :
    CreateResult × DB :=
  match fault with
  | .connFail => (.connError, db)
  | .execFail => (.persistenceError, db)
  | .noFault =>
    (.ok db.nextCustomerId,
      { db with
          customers := db.customers ++ [⟨db.nextCustomerId, name, email⟩],
          nextCustomerId := db.nextCustomerId + 1 })

/-- Outcome of `update_pickup_datetime`: `(True, None)` or `(False, message)`. -/
inductive UpdateResult where
  | ok
  | connError
  | persistenceError
deriving DecidableEq, Repr

/-- `update_pickup_datetime(order_id, pickup_dt)` (source lines 189–214):
`UPDATE Orders SET PickupDate = %s WHERE OrderID = %s` then commit. Every
row whose `OrderID` matches is updated; if none matches the statement still
succeeds (MySQL reports zero affected rows without raising), and the source
checks no row count, so the function returns `(True, None)` regardless. -/
def update_pickup_datetime (db : DB) (fault : WriteFault) (order_id : Nat)
    (pickup_dt : PyDateTime) : UpdateResult × DB :=
  match fault with
  | .connFail => (.connError, db)
  | .execFail => (.persistenceError, db)
  | .noFault =>
    (.ok,
      { db with
          orders := db.orders.map (fun o =>
            if o.OrderID = order_id then { o with PickupDate := pickup_dt } else o) })

/-- Which failure, if any, `place_order_transaction` hits: connection
failure, or the `k`-th `INSERT` of the transaction raising (insert 0 is the
`Orders` header, insert `i + 1` is the `OrderItems` row for cart line `i`).
An `atInsert k` beyond the number of statements means nothing raises. -/
inductive PlaceFault where
  | connFail
  | atInsert (k : Nat)
  | noFault
deriving DecidableEq, Repr

/-- Outcome of `place_order_transaction`. -/
inductive PlaceResult where
  | ok (order_id : Nat)
  | emptyCart
  | connError
  | persistenceError
deriving DecidableEq, Repr

/-- The source's total loop:
`total_price = 0.0; for item in cart_items: total_price += unit_price * quantity`. -/
def cartItemsTotal (cart_items : List CartLine) : ℚ :=
  cart_items.foldl (fun acc item => acc + item.unit_price * (item.quantity : ℚ)) 0

/-- The `Orders` row inserted by `place_order_transaction`. -/
def newOrderRow (db : DB) (customer_id vendor_id : Nat) (order_date : Nat)
    (pickup_dt : PyDateTime) (cart_items : List CartLine) : OrderRow :=
  ⟨db.nextOrderId, customer_id, vendor_id, order_date, pickup_dt,
    cartItemsTotal cart_items⟩

/-- The `OrderItems` rows inserted by `place_order_transaction`, one per
cart line, each carrying the line's `product_id`, `quantity` and
`unit_price`. -/
def newOrderItemRows (db : DB) (cart_items : List CartLine) : List OrderItemRow :=
  cart_items.enum.map (fun p =>
    ⟨db.nextOrderItemId + p.1, db.nextOrderId, p.2.product_id, p.2.quantity,
      p.2.unit_price⟩)

/-- `place_order_transaction` (source lines 299–362): rejects an empty cart
before touching the store; otherwise opens a transaction, inserts the order
header then one `OrderItems` row per cart line, and commits. If any insert
raises, `conn.rollback()` discards every row written inside the transaction,
so the database is exactly the pre-call state and `(False, str(e))` is
returned. `order_date` stands for `datetime.now()` at the call. -/
def place_order_transaction (db : DB) (fault : PlaceFault)
    (customer_id vendor_id : Nat) (order_date : Nat) (pickup_dt : PyDateTime)
    (cart_items : List CartLine) : PlaceResult × DB :=
  if cart_items.isEmpty then (.emptyCart, db)
  else
    match fault with
    | .connFail => (.connError, db)
    | .atInsert k =>
      if k < 1 + cart_items.length then (.persistenceError, db)
      else
        (.ok db.nextOrderId,
          { db with
              orders := db.orders ++
                [newOrderRow db customer_id vendor_id order_date pickup_dt cart_items],
              orderItems := db.orderItems ++ newOrderItemRows db cart_items,
              nextOrderId := db.nextOrderId + 1,
              nextOrderItemId := db.nextOrderItemId + cart_items.length })
    | .noFault =>
      (.ok db.nextOrderId,
        { db with
            orders := db.orders ++
              [newOrderRow db customer_id vendor_id order_date pickup_dt cart_items],
            orderItems := db.orderItems ++ newOrderItemRows db cart_items,
            nextOrderId := db.nextOrderId + 1,
            nextOrderItemId := db.nextOrderItemId + cart_items.length })

/-! ## Read-only query functions

Each `get_*`/`search_*` function first calls `get_connection()` and returns
the empty list when it yields `None`; `connOk` models whether the
connection is established. The SQL result set is computed from the `DB`
tables. -/

/-- Insertion step of a stable sort with a boolean "≤" test. -/
def insertByLe (le : α → α → Bool) (x : α) : List α → List α
  | [] => [x]
  | y :: ys => if le x y then x :: y :: ys else y :: insertByLe le x ys

/-- A sort with a boolean "≤" test, modelling SQL `ORDER BY`. -/
def sortByLe (le : α → α → Bool) (xs : List α) : List α :=
  xs.foldr (insertByLe le) []

/-- String "≤" for `ORDER BY name` clauses. -/
def strLe (a b : String) : Bool :=
  if b < a then false else true

/-- `get_markets()` (lines 40–56): all markets ordered by name, or `[]`
when the connection fails. -/
def get_markets (db : DB) (connOk : Bool) : List MarketRow :=
  if !connOk then []
  else sortByLe (fun a b => strLe a.Name b.Name) db.markets

/-- Result row of `get_vendors_for_market`. -/
structure VendorAtMarketRow where
  VendorID : Nat
  BusinessName : String
  ProductCount : Nat
  DateAvailable : Nat
  StartTime : PyTime
  EndTime : PyTime
deriving DecidableEq, Repr

/-- `get_vendors_for_market(market_id)` (lines 59–90): `VendorMarket` rows
for the market joined to `Vendor`, with `COUNT(Product.ProductID)` over the
left-joined products (0 when the vendor has none), ordered by business
name; `[]` when the connection fails. -/
def get_vendors_for_market (db : DB) (connOk : Bool) (market_id : Nat) :
    List VendorAtMarketRow :=
  if !connOk then []
  else
    sortByLe (fun a b => strLe a.BusinessName b.BusinessName)
      ((db.vendorMarkets.filter (fun vm => vm.MarketID == market_id)).filterMap
        (fun vm =>
          (db.vendors.find? (fun v => v.VendorID == vm.VendorID)).map (fun v =>
            ⟨v.VendorID, v.BusinessName,
              (db.products.filter (fun p => p.VendorID == v.VendorID)).length,
              vm.DateAvailable, vm.StartTime, vm.EndTime⟩)))

/-- MySQL `LIKE '%keyword%'` under the default case-insensitive collation:
case-insensitive "contains". -/
def likeContains (keyword name : String) : Bool :=
  decide (List.IsInfix keyword.toLower.toList name.toLower.toList)

/-- Result row of `search_products`; market name and location are `none`
for a vendor left-joined to no market. -/
structure SearchResultRow where
  ProductID : Nat
  ProductName : String
  Price : ℚ
  BusinessName : String
  MarketName : Option String
  Location : Option String
deriving DecidableEq, Repr

/-- `search_products(keyword)` (lines 93–119): products whose name matches
`LIKE %keyword%`, inner-joined to their vendor, left-joined to the vendor's
markets; `[]` when the connection fails. -/
def search_products (db : DB) (connOk : Bool) (keyword : String) :
    List SearchResultRow :=
  if !connOk then []
  else
    (db.products.filter (fun p => likeContains keyword p.Name)).flatMap (fun p =>
      match db.vendors.find? (fun v => v.VendorID == p.VendorID) with
      | none => []
      | some v =>
        match db.vendorMarkets.filter (fun vm => vm.VendorID == v.VendorID) with
        | [] => [⟨p.ProductID, p.Name, p.Price, v.BusinessName, none, none⟩]
        | vms =>
          vms.map (fun vm =>
            match db.markets.find? (fun m => m.MarketID == vm.MarketID) with
            | some m =>
              ⟨p.ProductID, p.Name, p.Price, v.BusinessName, some m.Name,
                some m.Location⟩
            | none => ⟨p.ProductID, p.Name, p.Price, v.BusinessName, none, none⟩))

/-- `get_customers()` (lines 122–138): all customers ordered by name. -/
def get_customers (db : DB) (connOk : Bool) : List CustomerRow :=
  if !connOk then []
  else sortByLe (fun a b => strLe a.Name b.Name) db.customers

/-- `get_orders_for_customer(customer_id)` (lines 169–186): the customer's
orders as `(OrderID, OrderDate, PickupDate, TotalPrice)`, ordered by
`OrderDate DESC`. -/
def get_orders_for_customer (db : DB) (connOk : Bool) (customer_id : Nat) :
    List (Nat × Nat × PyDateTime × ℚ) :=
  if !connOk then []
  else
    sortByLe (fun a b => decide (b.2.1 ≤ a.2.1))
      ((db.orders.filter (fun o => o.CustomerID == customer_id)).map (fun o =>
        (o.OrderID, o.OrderDate, o.PickupDate, o.TotalPrice)))

/-- `get_order_items(order_id)` (lines 217–238): the order's items
inner-joined to `Product` for the product name, as
`(OrderItemID, ProductName, Quantity, Price)`. -/
def get_order_items (db : DB) (connOk : Bool) (order_id : Nat) :
    List (Nat × String × Nat × ℚ) :=
  if !connOk then []
  else
    (db.orderItems.filter (fun i => i.OrderID == order_id)).filterMap (fun i =>
      (db.products.find? (fun p => p.ProductID == i.ProductID)).map (fun p =>
        (i.OrderItemID, p.Name, i.Quantity, i.Price)))

/-- `get_all_products()` (lines 241–257): `(ProductID, Name)` for every
product, ordered by name. -/
def get_all_products (db : DB) (connOk : Bool) : List (Nat × String) :=
  if !connOk then []
  else
    sortByLe (fun a b => strLe a.2 b.2)
      (db.products.map (fun p => (p.ProductID, p.Name)))

/-- `get_all_vendors()` (lines 260–276): all vendors ordered by business
name. -/
def get_all_vendors (db : DB) (connOk : Bool) : List VendorRow :=
  if !connOk then []
  else sortByLe (fun a b => strLe a.BusinessName b.BusinessName) db.vendors

/-- `get_products_for_vendor(vendor_id)` (lines 279–296): the vendor's
products as `(ProductID, Name, Price)`, ordered by name. -/
def get_products_for_vendor (db : DB) (connOk : Bool) (vendor_id : Nat) :
    List (Nat × String × ℚ) :=
  if !connOk then []
  else
    sortByLe (fun a b => strLe a.2.1 b.2.1)
      ((db.products.filter (fun p => p.VendorID == vendor_id)).map (fun p =>
        (p.ProductID, p.Name, p.Price)))

/-! ## The `Place Order` click handler of `page_place_preorder` -/

/-- Python's `str.strip()`: drop leading and trailing whitespace. -/
def pyStrip (s : String) : String :=
  String.mk
    (((s.toList.dropWhile Char.isWhitespace).reverse.dropWhile
      Char.isWhitespace).reverse)

/-- The parts of `st.session_state` the pre-order page touches. -/
structure SessionState where
  cart : List CartLine
  customer_id : Option Nat
  customer_name : String
  customer_email : String
deriving DecidableEq, Repr

/-- What the `Place Order` handler reports: the two early-return warnings,
the customer-creation failure, the order failure, or success. -/
inductive ClickOutcome where
  | emptyCartWarning
  | emptyFieldsWarning
  | customerError
  | orderFailed
  | orderPlaced (order_id : Nat)
deriving DecidableEq, Repr

/-- The tail of the handler (source lines 695–706): run
`place_order_transaction` with the session cart; on success clear the cart,
on failure leave the session untouched. -/
def runPlaceOrder (db : DB) (sess : SessionState) (pfault : PlaceFault)
    (customer_id vendor_id : Nat) (now : Nat) (pickup_dt : PyDateTime) :
    ClickOutcome × DB × SessionState :=
  match place_order_transaction db pfault customer_id vendor_id now pickup_dt
      sess.cart with
  | (.ok order_id, db2) => (.orderPlaced order_id, db2, { sess with cart := [] })
  | (_, db2) => (.orderFailed, db2, sess)

/-- The `Place Order` button handler (source lines 668–706): warn and stop
on an empty cart or an empty-after-strip name/email; otherwise resolve the
session customer (creating a `Customer` row only when the session holds
none), then attempt the order transaction. -/
def placeOrderClick (db : DB) (sess : SessionState) (name email : String)
    (vendor_id : Nat) (now : Nat) (pickup_date : Nat) (pickup_time : PyTime)
    (cfault : WriteFault) (pfault : PlaceFault) :
    ClickOutcome × DB × SessionState :=
  if sess.cart.isEmpty then (.emptyCartWarning, db, sess)
  else if pyStrip name = "" || pyStrip email = "" then (.emptyFieldsWarning, db, sess)
  else
    let pickup_dt : PyDateTime := ⟨pickup_date, pickup_time⟩
    match sess.customer_id with
    | none =>
      match create_customer db cfault (pyStrip name) (pyStrip email) with
      | (.ok cid, db1) =>
        runPlaceOrder db1
          { sess with
              customer_id := some cid
              customer_name := pyStrip name
              customer_email := pyStrip email }
          pfault cid vendor_id now pickup_dt
      | (_, db1) => (.customerError, db1, sess)
    | some cid =>
      runPlaceOrder db
        { sess with customer_name := pyStrip name, customer_email := pyStrip email }
        pfault cid vendor_id now pickup_dt

/-! ## States reachable through the application's pages

Both pages that write pickup times (`page_place_preorder` lines 662–677 and
`page_my_orders` lines 572–580) take the time from a selectbox whose
options are exactly `ALLOWED_PICKUP_TIMES`, so every `pickup_dt` handed to
`place_order_transaction` or `update_pickup_datetime` has its time
component in that list. `ReachableUI` closes the database states under
those calls (plus customer creation, which does not touch orders). -/
inductive ReachableUI : DB → Prop
  | init (db : DB) : db.orders = [] → ReachableUI db
  | createCust (db : DB) (fault : WriteFault) (name email : String) :
      ReachableUI db → ReachableUI (create_customer db fault name email).2
  | place (db : DB) (fault : PlaceFault) (customer_id vendor_id : Nat)
      (order_date : Nat) (pickup_dt : PyDateTime) (cart_items : List CartLine) :
      ReachableUI db → pickup_dt.time ∈ ALLOWED_PICKUP_TIMES →
      ReachableUI (place_order_transaction db fault customer_id vendor_id
        order_date pickup_dt cart_items).2
  | amend (db : DB) (fault : WriteFault) (order_id : Nat)
      (pickup_dt : PyDateTime) :
      ReachableUI db → pickup_dt.time ∈ ALLOWED_PICKUP_TIMES →
      ReachableUI (update_pickup_datetime db fault order_id pickup_dt).2

/-! ## Theorems -/

/-- C8: `ALLOWED_PICKUP_TIMES` is the ordered sequence of exactly 11 times —
every half-hour from 08:00 up to and including 12:30, plus 13:00; a time is
valid iff it is exactly one of these entries (so 12:45 is invalid); and
`time_to_label` renders 08:30 as "8:30 AM" and 13:00 as "1:00 PM". -/
theorem claim_C8_timeslot_policy :
    ALLOWED_PICKUP_TIMES =
      [⟨8, 0⟩, ⟨8, 30⟩, ⟨9, 0⟩, ⟨9, 30⟩, ⟨10, 0⟩, ⟨10, 30⟩, ⟨11, 0⟩,
        ⟨11, 30⟩, ⟨12, 0⟩, ⟨12, 30⟩, ⟨13, 0⟩] ∧
    ALLOWED_PICKUP_TIMES.length = 11 ∧
    isValidPickupTime ⟨12, 45⟩ = false ∧
    (∀ t : PyTime, isValidPickupTime t = true ↔ t ∈ ALLOWED_PICKUP_TIMES) ∧
    time_to_label ⟨8, 30⟩ = "8:30 AM" ∧
    time_to_label ⟨13, 0⟩ = "1:00 PM" := by
  refine ⟨by decide, by decide, by decide, ?_, by decide, by decide⟩
  intro t
  simp [isValidPickupTime, List.contains, List.elem_iff]

/-- C3: `place_order_transaction` called with an empty cart returns the
empty-cart failure and leaves the database exactly as it was — no `Orders`
row and no `OrderItems` row is created. -/
theorem claim_C3_empty_cart (db : DB) (fault : PlaceFault)
    (customer_id vendor_id order_date : Nat) (pickup_dt : PyDateTime) :
    place_order_transaction db fault customer_id vendor_id order_date
      pickup_dt [] = (.emptyCart, db) := rfl

/-- C10: every read-only query — markets, vendors for a market, products
for a vendor, all products, all vendors, customers, orders for a customer,
order items, and keyword search — returns `[]` when the connection cannot
be established, which is exactly what each returns on a genuinely empty
database with a healthy connection. -/
theorem claim_C10_queries_empty_on_conn_failure (db : DB)
    (market_id vendor_id customer_id order_id : Nat) (keyword : String) :
    (get_markets db false = [] ∧
      get_vendors_for_market db false market_id = [] ∧
      get_products_for_vendor db false vendor_id = [] ∧
      get_all_products db false = [] ∧
      get_all_vendors db false = [] ∧
      get_customers db false = [] ∧
      get_orders_for_customer db false customer_id = [] ∧
      get_order_items db false order_id = [] ∧
      search_products db false keyword = []) ∧
    (get_markets emptyDB true = [] ∧
      get_vendors_for_market emptyDB true market_id = [] ∧
      get_products_for_vendor emptyDB true vendor_id = [] ∧
      get_all_products emptyDB true = [] ∧
      get_all_vendors emptyDB true = [] ∧
      get_customers emptyDB true = [] ∧
      get_orders_for_customer emptyDB true customer_id = [] ∧
      get_order_items emptyDB true order_id = [] ∧
      search_products emptyDB true keyword = []) :=
  ⟨⟨rfl, rfl, rfl, rfl, rfl, rfl, rfl, rfl, rfl⟩,
    ⟨rfl, rfl, rfl, rfl, rfl, rfl, rfl, rfl, rfl⟩⟩

/-- C6 counterexample: on a database with no orders at all,
`update_pickup_datetime` for order id 1 returns success — not
`PersistenceError` as the claim states — and mutates nothing. The source
never checks the affected-row count of its `UPDATE`. -/
theorem claim_C6_counterexample :
    update_pickup_datetime emptyDB .noFault 1 ⟨0, ⟨11, 0⟩⟩ = (.ok, emptyDB) ∧
    (update_pickup_datetime emptyDB .noFault 1 ⟨0, ⟨11, 0⟩⟩).1 ≠
      UpdateResult.persistenceError :=
  ⟨rfl, by decide⟩

/-- C6 amended: on an order id matching no existing order,
`update_pickup_datetime` returns success and mutates nothing; it fails
with `PersistenceError` only when the store is unreachable or the UPDATE
statement itself raises. -/
theorem claim_C6_amended (db : DB) (order_id : Nat) (pickup_dt : PyDateTime)
    (h : ∀ o ∈ db.orders, o.OrderID ≠ order_id) :
    update_pickup_datetime db .noFault order_id pickup_dt = (.ok, db) := by
  have hmap : db.orders.map (fun o =>
      if o.OrderID = order_id then { o with PickupDate := pickup_dt } else o)
      = db.orders := by
    calc db.orders.map (fun o =>
          if o.OrderID = order_id then { o with PickupDate := pickup_dt } else o)
        = db.orders.map id := List.map_congr_left (fun o ho => by simp [h o ho])
      _ = db.orders := List.map_id db.orders
  unfold update_pickup_datetime
  rw [hmap]

/-- C6 amended, witness at a concrete input. -/
theorem claim_C6_amended_witness :
    update_pickup_datetime emptyDB .noFault 7 ⟨3, ⟨9, 0⟩⟩ = (.ok, emptyDB) :=
  claim_C6_amended emptyDB 7 ⟨3, ⟨9, 0⟩⟩ (by simp [emptyDB])

/-- C7 counterexample: `create_customer` performs no validation — called
with a name that is empty (hence empty after trimming), it inserts a
`Customer` row and returns the new id rather than failing with a
`ValidationError`. -/
theorem claim_C7_counterexample :
    pyStrip "" = "" ∧
    (create_customer emptyDB .noFault "" "x@example.com").1 = .ok 1 ∧
    (create_customer emptyDB .noFault "" "x@example.com").2.customers =
      [⟨1, "", "x@example.com"⟩] :=
  ⟨rfl, rfl, rfl⟩

/-- C7 amended: the empty-after-trim defence lives in the checkout handler,
not in `create_customer`: when the submitted name or email trims to the
empty string, `placeOrderClick` stops at a warning and neither the database
nor the session is touched — in particular no `Customer` row is inserted. -/
theorem claim_C7_amended (db : DB) (sess : SessionState) (name email : String)
    (vendor_id now pickup_date : Nat) (pickup_time : PyTime)
    (cfault : WriteFault) (pfault : PlaceFault)
    (h : pyStrip name = "" ∨ pyStrip email = "") :
    placeOrderClick db sess name email vendor_id now pickup_date pickup_time
      cfault pfault =
      ((if sess.cart.isEmpty then ClickOutcome.emptyCartWarning
        else ClickOutcome.emptyFieldsWarning), db, sess) := by
  unfold placeOrderClick
  cases hc : sess.cart.isEmpty
  · have hb : (pyStrip name = "" || pyStrip email = "") = true := by
      rcases h with h | h <;> simp [h]
    simp [hc, hb]
  · simp [hc]

/-- C7 amended, witness: a name of one blank (empty after trim) with a
non-empty cart stops at the fields warning, leaving everything unchanged. -/
theorem claim_C7_amended_witness :
    placeOrderClick emptyDB ⟨[⟨1, "Corn", 1, 2⟩], none, "", ""⟩ " "
      "x@example.com" 1 0 0 ⟨11, 0⟩ .noFault .noFault =
      (.emptyFieldsWarning, emptyDB, ⟨[⟨1, "Corn", 1, 2⟩], none, "", ""⟩) := by
  have hcall := claim_C7_amended emptyDB ⟨[⟨1, "Corn", 1, 2⟩], none, "", ""⟩
    " " "x@example.com" 1 0 0 ⟨11, 0⟩ .noFault .noFault (Or.inl (by decide))
  simpa using hcall

/-- The source's running-total loop equals the sum of `unitPrice × quantity`
over the cart lines. -/
theorem cartItemsTotal_eq_sum (cart_items : List CartLine) :
    cartItemsTotal cart_items =
      (cart_items.map (fun l => l.unit_price * (l.quantity : ℚ))).sum := by
  have ha : ∀ (cs : List CartLine) (acc : ℚ),
      cs.foldl (fun a item => a + item.unit_price * (item.quantity : ℚ)) acc
        = acc + (cs.map (fun l => l.unit_price * (l.quantity : ℚ))).sum := by
    intro cs
    induction cs with
    | nil => intro acc; simp
    | cons l ls ih => intro acc; simp [ih, add_assoc]
  simpa [cartItemsTotal] using ha cart_items 0

/-- C1: for a non-empty cart, a failure during any insert of the commit —
the order header (insert 0) or any order item (insert `i + 1`) — rolls the
whole unit of work back: the call fails with the persistence error and the
database is exactly the pre-call state, so zero `Orders` rows and zero
`OrderItems` rows exist for that attempt; with no failure the commit
installs the order header and every one of its items. -/
theorem claim_C1_rollback_atomicity (db : DB)
    (k customer_id vendor_id order_date : Nat) (pickup_dt : PyDateTime)
    (cart_items : List CartLine) (hne : cart_items ≠ []) :
    (k < 1 + cart_items.length →
      place_order_transaction db (.atInsert k) customer_id vendor_id
        order_date pickup_dt cart_items = (.persistenceError, db)) ∧
    place_order_transaction db .noFault customer_id vendor_id order_date
        pickup_dt cart_items =
      (.ok db.nextOrderId,
        { db with
            orders := db.orders ++
              [newOrderRow db customer_id vendor_id order_date pickup_dt cart_items]
            orderItems := db.orderItems ++ newOrderItemRows db cart_items
            nextOrderId := db.nextOrderId + 1
            nextOrderItemId := db.nextOrderItemId + cart_items.length }) := by
  have hni : cart_items.isEmpty = false := List.isEmpty_eq_false.mpr hne
  constructor
  · intro hk
    simp [place_order_transaction, hni, hk]
  · simp [place_order_transaction, hni]

/-- C1, witness: with a one-line cart, the item insert (insert 1) failing
yields the rollback outcome, and the fault-free run succeeds. -/
theorem claim_C1_rollback_atomicity_witness :
    place_order_transaction emptyDB (.atInsert 1) 1 1 0 ⟨0, ⟨11, 0⟩⟩
      [⟨1, "Tomato", 5/2, 3⟩] = (.persistenceError, emptyDB) ∧
    (place_order_transaction emptyDB .noFault 1 1 0 ⟨0, ⟨11, 0⟩⟩
      [⟨1, "Tomato", 5/2, 3⟩]).1 = .ok 1 :=
  ⟨(claim_C1_rollback_atomicity emptyDB 1 1 1 0 ⟨0, ⟨11, 0⟩⟩
      [⟨1, "Tomato", 5/2, 3⟩] (by decide)).1 (by decide),
    by
      rw [(claim_C1_rollback_atomicity emptyDB 1 1 1 0 ⟨0, ⟨11, 0⟩⟩
        [⟨1, "Tomato", 5/2, 3⟩] (by decide)).2]
      rfl⟩

/-- C2: a fault-free commit of a non-empty cart of `N` lines creates
exactly one `Orders` row and exactly `N` `OrderItems` rows; the stored
total is the exact sum of `unitPrice × quantity` over the cart lines as
captured in them (the catalog tables play no part), and the `i`-th item
row carries line `i`'s `product_id`, `quantity` and `unit_price`. -/
theorem claim_C2_commit_row_shape (db : DB)
    (customer_id vendor_id order_date : Nat) (pickup_dt : PyDateTime)
    (cart_items : List CartLine) (hne : cart_items ≠ []) :
    (place_order_transaction db .noFault customer_id vendor_id order_date
        pickup_dt cart_items).1 = .ok db.nextOrderId ∧
    (place_order_transaction db .noFault customer_id vendor_id order_date
        pickup_dt cart_items).2.orders =
      db.orders ++
        [⟨db.nextOrderId, customer_id, vendor_id, order_date, pickup_dt,
          (cart_items.map (fun l => l.unit_price * (l.quantity : ℚ))).sum⟩] ∧
    (place_order_transaction db .noFault customer_id vendor_id order_date
        pickup_dt cart_items).2.orders.length = db.orders.length + 1 ∧
    (place_order_transaction db .noFault customer_id vendor_id order_date
        pickup_dt cart_items).2.orderItems =
      db.orderItems ++
        cart_items.enum.map (fun p =>
          ⟨db.nextOrderItemId + p.1, db.nextOrderId, p.2.product_id,
            p.2.quantity, p.2.unit_price⟩) ∧
    (place_order_transaction db .noFault customer_id vendor_id order_date
        pickup_dt cart_items).2.orderItems.length =
      db.orderItems.length + cart_items.length := by
  have hni : cart_items.isEmpty = false := List.isEmpty_eq_false.mpr hne
  refine ⟨?_, ?_, ?_, ?_, ?_⟩ <;>
    simp [place_order_transaction, hni, newOrderRow, newOrderItemRows,
      cartItemsTotal_eq_sum]

/-- C2, witness: the spec's end-to-end scenario — Tomato 2.50 × 3 plus
Corn 1.00 × 6 — creates one order with total 13.50 and two item rows. -/
theorem claim_C2_commit_row_shape_witness :
    (place_order_transaction emptyDB .noFault 1 1 0 ⟨0, ⟨11, 0⟩⟩
      [⟨1, "Tomato", 5/2, 3⟩, ⟨2, "Corn", 1, 6⟩]).2.orders =
      [⟨1, 1, 1, 0, ⟨0, ⟨11, 0⟩⟩, 27/2⟩] ∧
    (place_order_transaction emptyDB .noFault 1 1 0 ⟨0, ⟨11, 0⟩⟩
      [⟨1, "Tomato", 5/2, 3⟩, ⟨2, "Corn", 1, 6⟩]).2.orderItems.length = 2 := by
  have h := claim_C2_commit_row_shape emptyDB 1 1 0 ⟨0, ⟨11, 0⟩⟩
    [⟨1, "Tomato", 5/2, 3⟩, ⟨2, "Corn", 1, 6⟩] (by decide)
  refine ⟨?_, ?_⟩
  · rw [h.2.1]; norm_num [emptyDB]
  · rw [h.2.2.2.2]; rfl

/-! ## Cart lemmas (C4) -/

/-- The cart invariant of the pre-order page: at most one line per
distinct product id, and every quantity at least 1. -/
def CartInv (cart : List CartLine) : Prop :=
  cart.Pairwise (fun a b => a.product_id ≠ b.product_id) ∧
    ∀ l ∈ cart, 1 ≤ l.quantity

/-- Every line of a bumped cart descends from a line of the original cart:
same product id, name and captured price, with a quantity at least the
original one. -/
theorem mem_bumpQuantity (pid qty : Nat) (cart : List CartLine)
    (b : CartLine) (hb : b ∈ bumpQuantity pid qty cart) :
    ∃ a ∈ cart, b.product_id = a.product_id ∧
      b.product_name = a.product_name ∧ b.unit_price = a.unit_price ∧
      a.quantity ≤ b.quantity := by
  induction cart with
  | nil => simp [bumpQuantity] at hb
  | cons l ls ih =>
    rw [bumpQuantity] at hb
    by_cases h : l.product_id = pid
    · rw [if_pos h] at hb
      rcases List.mem_cons.mp hb with hb | hb
      · exact ⟨l, List.mem_cons_self l ls,
          by simp [hb, Nat.le_add_right]⟩
      · exact ⟨b, List.mem_cons_of_mem l hb, rfl, rfl, rfl, le_refl _⟩
    · rw [if_neg h] at hb
      rcases List.mem_cons.mp hb with hb | hb
      · exact ⟨l, List.mem_cons_self l ls, by simp [hb]⟩
      · obtain ⟨a, ha, h1⟩ := ih hb
        exact ⟨a, List.mem_cons_of_mem l ha, h1⟩

/-- Bumping keeps every original line represented, with its product id,
name and captured price intact. -/
theorem bumpQuantity_mem_of_mem (pid qty : Nat) (cart : List CartLine)
    (a : CartLine) (ha : a ∈ cart) :
    ∃ b ∈ bumpQuantity pid qty cart, b.product_id = a.product_id ∧
      b.product_name = a.product_name ∧ b.unit_price = a.unit_price := by
  induction cart with
  | nil => simp at ha
  | cons l ls ih =>
    rw [bumpQuantity]
    by_cases h : l.product_id = pid
    · rw [if_pos h]
      rcases List.mem_cons.mp ha with rfl | ha
      · exact ⟨{ a with quantity := a.quantity + qty },
          List.mem_cons_self _ _, rfl, rfl, rfl⟩
      · exact ⟨a, List.mem_cons_of_mem _ ha, rfl, rfl, rfl⟩
    · rw [if_neg h]
      rcases List.mem_cons.mp ha with rfl | ha
      · exact ⟨a, List.mem_cons_self _ _, rfl, rfl, rfl⟩
      · obtain ⟨b, hb, h1⟩ := ih ha
        exact ⟨b, List.mem_cons_of_mem _ hb, h1⟩

/-- Bumping preserves distinctness of the product ids. -/
theorem bumpQuantity_pairwise (pid qty : Nat) (cart : List CartLine)
    (h : cart.Pairwise (fun a b => a.product_id ≠ b.product_id)) :
    (bumpQuantity pid qty cart).Pairwise
      (fun a b => a.product_id ≠ b.product_id) := by
  induction cart with
  | nil => simp [bumpQuantity]
  | cons l ls ih =>
    rw [List.pairwise_cons] at h
    rw [bumpQuantity]
    by_cases hl : l.product_id = pid
    · rw [if_pos hl, List.pairwise_cons]
      exact ⟨fun b hb => h.1 b hb, h.2⟩
    · rw [if_neg hl, List.pairwise_cons]
      refine ⟨fun b hb => ?_, ih h.2⟩
      obtain ⟨a, ha, h1, _, _, _⟩ := mem_bumpQuantity pid qty ls b hb
      rw [h1]
      exact h.1 a ha

/-- C4 counterexample: starting from a cart that already holds product 1
with quantity 1, two further `addItem(p, 1)` calls leave a single line of
quantity 3 — not `q1 + q2 = 2` as the claim, quantified over every cart,
would require. -/
theorem claim_C4_counterexample :
    addToCart (addToCart [⟨1, "Tomato", 5, 1⟩] 1 "Tomato" 5 1) 1 "Tomato" 5 1
      = [⟨1, "Tomato", 5, 3⟩] ∧ (3 : Nat) ≠ 1 + 1 :=
  ⟨by decide, by decide⟩

/-- Bumping a cart none of whose lines matches, extended by one matching
line, bumps exactly that last line. -/
theorem bumpQuantity_append_of_not_found (pid qty : Nat)
    (cart : List CartLine) (x : CartLine)
    (h : ∀ l ∈ cart, l.product_id ≠ pid) (hx : x.product_id = pid) :
    bumpQuantity pid qty (cart ++ [x]) =
      cart ++ [{ x with quantity := x.quantity + qty }] := by
  induction cart with
  | nil => simp [bumpQuantity, hx]
  | cons l ls ih =>
    have hl : l.product_id ≠ pid := h l (List.mem_cons_self l ls)
    have ih2 := ih (fun a ha => h a (List.mem_cons_of_mem l ha))
    simp only [List.cons_append, bumpQuantity, if_neg hl, List.append_eq] at ih2 ⊢
    rw [ih2]

/-- C4 amended: for a cart in which the product is not yet present,
`addItem(p, q1)` then `addItem(p, q2)` leaves exactly one line for `p`,
with quantity `q1 + q2` and the price captured at the first addition;
moreover every `addItem` with a positive quantity preserves the cart
invariant (distinct product ids, quantities ≥ 1), and later adds never
change the product id, name or captured price of an existing line. -/
theorem claim_C4_amended :
    (∀ (cart : List CartLine) (pid : Nat) (pname : String) (price : ℚ)
        (q1 q2 : Nat), (∀ l ∈ cart, l.product_id ≠ pid) →
      (addToCart (addToCart cart pid pname price q1) pid pname price q2).filter
        (fun l => l.product_id = pid) = [⟨pid, pname, price, q1 + q2⟩]) ∧
    (∀ (cart : List CartLine) (pid : Nat) (pname : String) (price : ℚ)
        (qty : Nat), CartInv cart → 1 ≤ qty →
      CartInv (addToCart cart pid pname price qty)) ∧
    (∀ (cart : List CartLine) (pid : Nat) (pname : String) (price : ℚ)
        (qty : Nat) (a : CartLine), a ∈ cart →
      ∃ b ∈ addToCart cart pid pname price qty, b.product_id = a.product_id ∧
        b.product_name = a.product_name ∧ b.unit_price = a.unit_price) := by
  refine ⟨?_, ?_, ?_⟩
  · intro cart pid pname price q1 q2 h
    have hnotfound : cart.any (fun l => l.product_id = pid) = false := by
      simp only [List.any_eq_false, decide_eq_true_eq]
      exact h
    have h1 : addToCart cart pid pname price q1 = cart ++ [⟨pid, pname, price, q1⟩] := by
      rw [addToCart, if_neg (by simp [hnotfound])]
    rw [h1, addToCart, if_pos (by simp)]
    rw [bumpQuantity_append_of_not_found pid q2 cart _ h rfl]
    rw [List.filter_append, List.filter_eq_nil_iff.mpr (by simpa using h)]
    simp
  · intro cart pid pname price qty hinv hq
    obtain ⟨hpw, hqs⟩ := hinv
    rw [addToCart]
    cases hfound : cart.any (fun l => l.product_id = pid)
    · rw [if_neg (by simp [hfound])]
      constructor
      · rw [List.pairwise_append]
        refine ⟨hpw, List.pairwise_singleton _ _, ?_⟩
        intro a ha b hb
        rw [List.mem_singleton] at hb
        subst hb
        simpa using (List.any_eq_false.mp hfound) a ha
      · intro l hl
        rcases List.mem_append.mp hl with hl | hl
        · exact hqs l hl
        · rw [List.mem_singleton] at hl
          subst hl
          exact hq
    · rw [if_pos (by simp [hfound])]
      constructor
      · exact bumpQuantity_pairwise pid qty cart hpw
      · intro b hb
        obtain ⟨a, ha, _, _, _, hle⟩ := mem_bumpQuantity pid qty cart b hb
        exact le_trans (hqs a ha) hle
  · intro cart pid pname price qty a ha
    rw [addToCart]
    cases hfound : cart.any (fun l => l.product_id = pid)
    · rw [if_neg (by simp [hfound])]
      exact ⟨a, List.mem_append_left _ ha, rfl, rfl, rfl⟩
    · rw [if_pos (by simp [hfound])]
      exact bumpQuantity_mem_of_mem pid qty cart a ha

/-- C4 amended, witness: from the empty cart, adding product 1 twice with
quantity 1 each time leaves one line of quantity 2, and the invariant
holds afterwards. -/
theorem claim_C4_amended_witness :
    (addToCart (addToCart [] 1 "Tomato" 5 1) 1 "Tomato" 5 1).filter
      (fun l => l.product_id = 1) = [⟨1, "Tomato", 5, 1 + 1⟩] ∧
    CartInv (addToCart [] 1 "Tomato" 5 1) :=
  ⟨claim_C4_amended.1 [] 1 "Tomato" 5 1 1 (by simp),
    claim_C4_amended.2.1 [] 1 "Tomato" 5 1 ⟨List.Pairwise.nil, by simp⟩
      (by decide)⟩

/-- A time the UI selected from the grid passes the validity test. -/
theorem isValidPickupTime_of_mem (t : PyTime)
    (ht : t ∈ ALLOWED_PICKUP_TIMES) : isValidPickupTime t = true :=
  List.elem_eq_true_of_mem ht

/-- C5: in every database state reachable through the application's pages —
where each pickup datetime handed to commit or amendment is drawn from the
`ALLOWED_PICKUP_TIMES` selectbox — every committed order's `PickupDate` has
its time component on the `TimeSlotPolicy` grid, immediately after commit
and after any number of amendments. -/
theorem claim_C5_pickup_date_on_grid (db : DB) (hreach : ReachableUI db) :
    db.orders.all (fun o => isValidPickupTime o.PickupDate.time) = true := by
  induction hreach with
  | init db h => simp [h]
  | createCust db fault name email _ ih =>
    cases fault <;> simpa [create_customer] using ih
  | place db fault customer_id vendor_id order_date pickup_dt cart_items _ ht ih =>
    cases hc : cart_items.isEmpty
    · cases fault with
      | connFail => simpa [place_order_transaction, hc] using ih
      | atInsert k =>
        by_cases hk : k < 1 + cart_items.length
        · simpa [place_order_transaction, hc, hk] using ih
        · simp [place_order_transaction, hc, hk, newOrderRow,
            isValidPickupTime_of_mem pickup_dt.time ht]
          simpa using ih
      | noFault =>
        simp [place_order_transaction, hc, newOrderRow,
          isValidPickupTime_of_mem pickup_dt.time ht]
        simpa using ih
    · simpa [place_order_transaction, hc] using ih
  | amend db fault order_id pickup_dt _ ht ih =>
    cases fault with
    | connFail => simpa [update_pickup_datetime] using ih
    | execFail => simpa [update_pickup_datetime] using ih
    | noFault =>
      simp only [update_pickup_datetime]
      rw [List.all_eq_true]
      intro x hx
      rw [List.mem_map] at hx
      obtain ⟨o, ho, rfl⟩ := hx
      by_cases h : o.OrderID = order_id
      · simp [h, isValidPickupTime_of_mem pickup_dt.time ht]
      · simp only [if_neg h]
        exact List.all_eq_true.mp ih o ho

/-- C5, witness: one UI commit at 11:00 into the empty store leaves every
order's pickup time on the grid. -/
theorem claim_C5_pickup_date_on_grid_witness :
    (place_order_transaction emptyDB .noFault 1 1 0 ⟨0, ⟨11, 0⟩⟩
      [⟨1, "Tomato", 5/2, 3⟩]).2.orders.all
      (fun o => isValidPickupTime o.PickupDate.time) = true :=
  claim_C5_pickup_date_on_grid _
    (ReachableUI.place emptyDB .noFault 1 1 0 ⟨0, ⟨11, 0⟩⟩
      [⟨1, "Tomato", 5/2, 3⟩] (ReachableUI.init emptyDB rfl) (by decide))

/-- The order-attempt tail of the handler clears the cart exactly on
success and returns the session untouched on failure. -/
theorem runPlaceOrder_cart (db : DB) (sess : SessionState)
    (pfault : PlaceFault) (customer_id vendor_id now : Nat)
    (pickup_dt : PyDateTime) :
    ((runPlaceOrder db sess pfault customer_id vendor_id now pickup_dt).1 =
        .orderFailed →
      (runPlaceOrder db sess pfault customer_id vendor_id now
        pickup_dt).2.2.cart = sess.cart) ∧
    (∀ oid, (runPlaceOrder db sess pfault customer_id vendor_id now
        pickup_dt).1 = .orderPlaced oid →
      (runPlaceOrder db sess pfault customer_id vendor_id now
        pickup_dt).2.2.cart = []) := by
  unfold runPlaceOrder
  split
  · simp
  · simp

/-- C9: for every checkout attempt through the `Place Order` handler, if
the commit fails the cart holds exactly the lines it held before the
attempt (it is not cleared), and if the commit succeeds the cart is empty
afterwards. -/
theorem claim_C9_cart_frame (db : DB) (sess : SessionState)
    (name email : String) (vendor_id now pickup_date : Nat)
    (pickup_time : PyTime) (cfault : WriteFault) (pfault : PlaceFault) :
    ((placeOrderClick db sess name email vendor_id now pickup_date
        pickup_time cfault pfault).1 = .orderFailed →
      (placeOrderClick db sess name email vendor_id now pickup_date
        pickup_time cfault pfault).2.2.cart = sess.cart) ∧
    (∀ oid, (placeOrderClick db sess name email vendor_id now pickup_date
        pickup_time cfault pfault).1 = .orderPlaced oid →
      (placeOrderClick db sess name email vendor_id now pickup_date
        pickup_time cfault pfault).2.2.cart = []) := by
  unfold placeOrderClick
  split
  · simp
  · split
    · simp
    · split
      · split
        · exact runPlaceOrder_cart _ _ _ _ _ _ _
        · simp
      · exact runPlaceOrder_cart _ _ _ _ _ _ _

/-- C9, witness: with a known session customer and a one-line cart, the
item insert failing leaves the cart intact, and the fault-free commit
clears it. -/
theorem claim_C9_cart_frame_witness :
    (placeOrderClick emptyDB ⟨[⟨1, "Corn", 1, 2⟩], some 4, "n", "e"⟩ "a" "b"
      1 0 0 ⟨11, 0⟩ .noFault (.atInsert 1)).2.2.cart = [⟨1, "Corn", 1, 2⟩] ∧
    (placeOrderClick emptyDB ⟨[⟨1, "Corn", 1, 2⟩], some 4, "n", "e"⟩ "a" "b"
      1 0 0 ⟨11, 0⟩ .noFault .noFault).2.2.cart = [] :=
  ⟨(claim_C9_cart_frame emptyDB ⟨[⟨1, "Corn", 1, 2⟩], some 4, "n", "e"⟩
      "a" "b" 1 0 0 ⟨11, 0⟩ .noFault (.atInsert 1)).1 (by decide),
    (claim_C9_cart_frame emptyDB ⟨[⟨1, "Corn", 1, 2⟩], some 4, "n", "e"⟩
      "a" "b" 1 0 0 ⟨11, 0⟩ .noFault .noFault).2 1 (by decide)⟩
